import Mathlib

/-
Shallow embedding of the audiohal crate (RamiHg/audiohal), from
src/src/stream_options.rs and src/src/portaudio/mod.rs.

The crate is a thin wrapper over PortAudio: an abstract sample-format enum
with a conversion to native format codes, a stream-configuration struct
with trait-driven defaults, and a global mutex around host calls.
-/

namespace Audiohal

/-- The crate Format enum (stream_options.rs). Marked non_exhaustive in the
source; its declared variants are exactly these six. -/
inductive Format where
  | F32
  | I32
  | I24
  | I16
  | I8
  | U8
deriving DecidableEq, Fintype

/-- Native PortAudio sample-format codes, the constructors of the external
ffi PaSampleFormat type that the conversion in portaudio/mod.rs targets. -/
inductive PaSampleFormat where
  | paFloat32
  | paInt32
  | paInt24
  | paInt16
  | paInt8
  | paUInt8
deriving DecidableEq, Fintype

/-- Modelled from the spec: crate::error::Error is declared in
src/portaudio/error.rs, which is not present under src/. Per the spec, the
single error kind relevant at this layer is format incompatibility
(IncompatibleFormat, carrying the offending Format); all other error
handling is a direct pass-through of the native library error codes,
modelled here as an opaque integer code variant. -/
inductive Error where
  | IncompatibleFormat (format : Format)
  | NativePassThrough (code : Int)
deriving DecidableEq

/-- The crate Result alias: Ok or crate::error::Error. -/
abbrev CrateResult (α : Type) : Type := Except Error α

/-- TryFrom for PaSampleFormat (portaudio/mod.rs, lines 27-43).
The source match maps the six declared variants to their native codes and
has a catch-all arm returning Err(Error::IncompatibleFormat(format)) for
any other (non_exhaustive future) variant; over the six declared variants
that arm is unreachable, so each arm here is an Ok. -/
def PaSampleFormat.tryFrom (format : Format) : CrateResult PaSampleFormat :=
  match format with
  | Format.F32 => Except.ok PaSampleFormat.paFloat32
  | Format.I32 => Except.ok PaSampleFormat.paInt32
  | Format.I24 => Except.ok PaSampleFormat.paInt24
  | Format.I16 => Except.ok PaSampleFormat.paInt16
  | Format.I8 => Except.ok PaSampleFormat.paInt8
  | Format.U8 => Except.ok PaSampleFormat.paUInt8

/-- The list of Format variants the source match maps to a native code. -/
def mappedFormats : List Format :=
  [Format.F32, Format.I32, Format.I24, Format.I16, Format.I8, Format.U8]

/-- The crate SampleRate enum (stream_options.rs). -/
inductive SampleRate where
  | Exact (rate : Int)
  | NearestTo (rate : Int)
  | DeviceDefault
deriving DecidableEq

/-- Default for SampleRate (stream_options.rs, lines 19-23). -/
def SampleRate.default : SampleRate := SampleRate.DeviceDefault

/-- The Callback type: a user function receiving a mutable buffer of
frames; modelled as a function from the buffer contents to the buffer
contents after the call. -/
def Callback (Frame : Type) : Type := List Frame → List Frame

/-- The StreamOptions configuration struct (stream_options.rs). -/
structure StreamOptions (Frame : Type) where
  format : Format
  n_channels : Int
  frames_per_buffer : Option Int
  sample_rate : SampleRate
  callback : Callback Frame

/-- The default dummy callback (stream_options.rs, lines 54-55): it does
nothing, so the buffer contents after the call equal the contents before. -/
def dummy_callback {T : Type} : List T → List T := fun buf => buf

/-- The HasDefaultFormat trait (stream_options.rs, lines 75-78): primitive
sample types with a direct Format equivalent. -/
class HasDefaultFormat (S : Type) where
  FORMAT : Format

/-- The HasDefaultNChannels trait (stream_options.rs, lines 87-90):
array frame types with a default channel count. -/
class HasDefaultNChannels (F : Type) where
  N_CHANNELS : Int

/-- Stand-in for the external sample::Frame trait bound tying a frame type
to its sample type (Frame: sample::Frame<Sample = Sample>). -/
class SampleFrame (F : Type) (S : outParam Type) where

/-- The f32 primitive sample type. Only its identity as a type tag matters
to the embedded definitions; no floating-point arithmetic is modelled. -/
structure f32 where
  val : Float

/-- The i16 primitive sample type, as a type tag (width is immaterial to
the embedded definitions). -/
structure i16 where
  val : Int

instance : HasDefaultFormat f32 := ⟨Format.F32⟩

instance : HasDefaultFormat i16 := ⟨Format.I16⟩

/-- Impl of HasDefaultNChannels for single-element arrays T in brackets 1
(stream_options.rs, lines 92-94), with the array type modelled as a
function out of Fin 1. -/
instance (T : Type) : HasDefaultNChannels (Fin 1 → T) := ⟨1⟩

/-- Impl of HasDefaultNChannels for two-element arrays T in brackets 2
(stream_options.rs, lines 95-97). -/
instance (T : Type) : HasDefaultNChannels (Fin 2 → T) := ⟨2⟩

instance (T : Type) (n : Nat) : SampleFrame (Fin n → T) T := ⟨⟩

/-- Default for StreamOptions (stream_options.rs, lines 57-72): format from
the sample type, channel count from the frame arity, default sample rate,
no frames_per_buffer, dummy callback. -/
def StreamOptions.mkDefault (F S : Type) [SampleFrame F S]
    [HasDefaultNChannels F] [HasDefaultFormat S] : StreamOptions F where
  format := @HasDefaultFormat.FORMAT S _
  n_channels := @HasDefaultNChannels.N_CHANNELS F _
  sample_rate := SampleRate.default
  frames_per_buffer := none
  callback := dummy_callback

/-- C1: for every Format variant with a defined native mapping (all six
declared variants), TryFrom succeeds and returns the corresponding native
code: F32 to paFloat32, I32 to paInt32, I24 to paInt24, I16 to paInt16,
I8 to paInt8, U8 to paUInt8. -/
theorem tryFrom_maps_each_variant :
    PaSampleFormat.tryFrom Format.F32 = Except.ok PaSampleFormat.paFloat32 ∧
    PaSampleFormat.tryFrom Format.I32 = Except.ok PaSampleFormat.paInt32 ∧
    PaSampleFormat.tryFrom Format.I24 = Except.ok PaSampleFormat.paInt24 ∧
    PaSampleFormat.tryFrom Format.I16 = Except.ok PaSampleFormat.paInt16 ∧
    PaSampleFormat.tryFrom Format.I8 = Except.ok PaSampleFormat.paInt8 ∧
    PaSampleFormat.tryFrom Format.U8 = Except.ok PaSampleFormat.paUInt8 :=
  ⟨rfl, rfl, rfl, rfl, rfl, rfl⟩

/-- C2: the conversion fails, with Error::IncompatibleFormat carrying the
input format, exactly when the format is outside the six mapped variants
(which, for the six declared variants, never happens); it never silently
substitutes a default code, and no other error kind is produced. -/
theorem tryFrom_error_exactly_unmapped :
    ∀ f : Format,
      (((PaSampleFormat.tryFrom f).isOk = true) ↔ f ∈ mappedFormats) ∧
      (∀ e : Error,
        PaSampleFormat.tryFrom f ≠ Except.error e ∨
          e = Error.IncompatibleFormat f) := by
  intro f
  constructor
  · cases f <;>
      simp [PaSampleFormat.tryFrom, mappedFormats, Except.isOk, Except.toBool]
  · intro e
    left
    cases f <;> simp [PaSampleFormat.tryFrom]

/-- Witness for C2 at the concrete variant F32: its membership in the
mapped list yields a successful conversion. -/
theorem tryFrom_error_exactly_unmapped_witness :
    (PaSampleFormat.tryFrom Format.F32).isOk = true :=
  (tryFrom_error_exactly_unmapped Format.F32).1.mpr (by decide)

/-- C3: for every frame type with a Default StreamOptions instance, the
default n_channels is 1 for single-element array frames and 2 for
two-element array frames. -/
theorem default_n_channels (T : Type) [HasDefaultFormat T] :
    (StreamOptions.mkDefault (Fin 1 → T) T).n_channels = 1 ∧
    (StreamOptions.mkDefault (Fin 2 → T) T).n_channels = 2 :=
  ⟨rfl, rfl⟩

/-- Witness for C3 at the concrete sample type f32. -/
theorem default_n_channels_witness :
    (StreamOptions.mkDefault (Fin 1 → f32) f32).n_channels = 1 ∧
    (StreamOptions.mkDefault (Fin 2 → f32) f32).n_channels = 2 :=
  default_n_channels f32

/-- C4: the default format field equals the sample type FORMAT constant for
every defaulted StreamOptions; in particular f32 frames default to F32 and
i16 frames default to I16. -/
theorem default_format_eq_sample_format :
    (∀ (F S : Type) (i1 : SampleFrame F S) (i2 : HasDefaultNChannels F)
      (i3 : HasDefaultFormat S),
      (StreamOptions.mkDefault F S).format = @HasDefaultFormat.FORMAT S i3) ∧
    (StreamOptions.mkDefault (Fin 2 → f32) f32).format = Format.F32 ∧
    (StreamOptions.mkDefault (Fin 2 → i16) i16).format = Format.I16 :=
  ⟨fun _ _ _ _ _ => rfl, rfl, rfl⟩

/-- Witness for C4 at the concrete frame type of one f32 channel. -/
theorem default_format_eq_sample_format_witness :
    (StreamOptions.mkDefault (Fin 1 → f32) f32).format =
      @HasDefaultFormat.FORMAT f32 _ :=
  default_format_eq_sample_format.1 (Fin 1 → f32) f32 _ _ _

/-- C5: the format-to-native-code mapping is one-to-one: distinct formats
on which the conversion succeeds receive distinct native codes. -/
theorem tryFrom_injective :
    ∀ (f g : Format) (c d : PaSampleFormat),
      f ≠ g →
      PaSampleFormat.tryFrom f = Except.ok c →
      PaSampleFormat.tryFrom g = Except.ok d →
      c ≠ d := by
  intro f g c d hne hf hg
  cases f <;> cases g <;>
    simp only [PaSampleFormat.tryFrom, Except.ok.injEq] at hf hg <;>
    subst_vars <;> simp_all

/-- Witness for C5 at the concrete pair F32 and I32. -/
theorem tryFrom_injective_witness :
    PaSampleFormat.paFloat32 ≠ PaSampleFormat.paInt32 :=
  tryFrom_injective Format.F32 Format.I32 _ _ (by decide) rfl rfl

/-- C7: converting the declared default FORMAT of any sample type never
fails; more generally every declared Format variant converts successfully,
so the IncompatibleFormat branch is unreachable for default-constructed
options. -/
theorem default_format_always_convertible :
    (∀ f : Format, ∃ c, PaSampleFormat.tryFrom f = Except.ok c) ∧
    PaSampleFormat.tryFrom (@HasDefaultFormat.FORMAT f32 _) =
      Except.ok PaSampleFormat.paFloat32 ∧
    PaSampleFormat.tryFrom (@HasDefaultFormat.FORMAT i16 _) =
      Except.ok PaSampleFormat.paInt16 ∧
    (∀ (F S : Type) (i1 : SampleFrame F S) (i2 : HasDefaultNChannels F)
      (i3 : HasDefaultFormat S),
      ∃ c, PaSampleFormat.tryFrom (StreamOptions.mkDefault F S).format =
        Except.ok c) := by
  refine ⟨fun f => ?_, rfl, rfl, fun F S i1 i2 i3 => ?_⟩
  · cases f <;> exact ⟨_, rfl⟩
  · cases h : @HasDefaultFormat.FORMAT S i3 <;>
      simp [StreamOptions.mkDefault, h, PaSampleFormat.tryFrom]

/-- C8: default sample_rate is SampleRate::DeviceDefault (the Default of
SampleRate) and default frames_per_buffer is None, for every frame type
with a Default StreamOptions instance. -/
theorem default_rate_and_buffer (F S : Type) [SampleFrame F S]
    [HasDefaultNChannels F] [HasDefaultFormat S] :
    SampleRate.default = SampleRate.DeviceDefault ∧
    (StreamOptions.mkDefault F S).sample_rate = SampleRate.DeviceDefault ∧
    (StreamOptions.mkDefault F S).frames_per_buffer = none :=
  ⟨rfl, rfl, rfl⟩

/-- Witness for C8 at the concrete frame type of two i16 channels. -/
theorem default_rate_and_buffer_witness :
    SampleRate.default = SampleRate.DeviceDefault ∧
    (StreamOptions.mkDefault (Fin 2 → i16) i16).sample_rate =
      SampleRate.DeviceDefault ∧
    (StreamOptions.mkDefault (Fin 2 → i16) i16).frames_per_buffer = none :=
  default_rate_and_buffer (Fin 2 → i16) i16

/-- C9: the callback installed by a Default-constructed StreamOptions is a
no-op: for every buffer, the default callback returns with the buffer
contents unchanged. -/
theorem default_callback_noop :
    (∀ (T : Type) (buf : List T), dummy_callback buf = buf) ∧
    (∀ (F S : Type) (i1 : SampleFrame F S) (i2 : HasDefaultNChannels F)
      (i3 : HasDefaultFormat S) (buf : List F),
      (StreamOptions.mkDefault F S).callback buf = buf) :=
  ⟨fun _ _ => rfl, fun _ _ _ _ _ _ => rfl⟩

/-- Witness for C9 on a concrete one-element f32 stereo buffer. -/
theorem default_callback_noop_witness :
    (StreamOptions.mkDefault (Fin 2 → f32) f32).callback [] = [] :=
  default_callback_noop.2 (Fin 2 → f32) f32 _ _ _ []

end Audiohal
